import Mathlib

/-!
Shallow embedding of `nsxt/resource_nsxt_policy_service.go` from the
terraform-provider-nsxt repository: the "Service" resource's entry codec
(flat configuration ↔ wire records for six service-entry variants) and the
surrounding create / read / update / delete handlers.

Conventions of the embedding:
* Go pointer fields (`*string`, `*int64`) become `Option`; a nil pointer is
  `none`, and dereferencing a nil pointer (a Go runtime panic) is modelled by
  a dedicated `crash` outcome, distinct from a returned error value.
* Go `error` return values become `Option String` / `Except String`.
* `schema.Set.List()` traversal of each configuration collection is modelled
  as a `List` in the traversal order the set yields.
* `newUUID()` is modelled by an identifier generator `gen : Nat → String`
  applied to a running counter: call number k yields `gen k`.
* The vAPI `TypeConverter`: `ConvertToVapi` of a well-formed entry struct is
  modelled as embedding into the sum type `StructValue` (it cannot fail on the
  structs this file builds); `ConvertToGolang` at a given binding type is
  modelled as succeeding exactly when the struct value structurally is that
  variant, and failing recoverably otherwise.
-/

instance {ε α : Type} [DecidableEq ε] [DecidableEq α] :
    DecidableEq (Except ε α) := fun a b =>
  match a, b with
  | Except.ok x, Except.ok y =>
    if h : x = y then isTrue (by rw [h])
    else isFalse (by intro hh; cases hh; exact h rfl)
  | Except.error x, Except.error y =>
    if h : x = y then isTrue (by rw [h])
    else isFalse (by intro hh; cases hh; exact h rfl)
  | Except.ok _, Except.error _ => isFalse (by intro hh; cases hh)
  | Except.error _, Except.ok _ => isFalse (by intro hh; cases hh)

/-- The decimal value of an ASCII digit character, `none` otherwise. -/
def digitVal? (c : Char) : Option Nat :=
  if c.isDigit then some (c.toNat - 48) else none

/-- Accumulate a run of decimal digits; `none` as soon as a non-digit is
seen. -/
def decDigitsAux : List Char → Nat → Option Nat
  | [], acc => some acc
  | c :: cs, acc =>
    match digitVal? c with
    | some d => decDigitsAux cs (10 * acc + d)
    | none => none

/-- A non-empty all-digit character run read as a natural number. -/
def decDigits? : List Char → Option Nat
  | [] => none
  | c :: cs => decDigitsAux (c :: cs) 0

/-- Go `strconv.Atoi` (64-bit `int`): an optional single leading sign
followed by at least one decimal digit (leading zeros accepted), with the
int64 range check. Modelled over the string's character list, matching Go's
byte scan on the ASCII inputs involved. -/
def Atoi (s : String) : Except String Int :=
  match s.data with
  | [] => Except.error ("strconv.Atoi: parsing " ++ s ++ ": invalid syntax")
  | c :: rest =>
    let neg := c = '-'
    let digits := if c = '-' ∨ c = '+' then rest else c :: rest
    match decDigits? digits with
    | none => Except.error ("strconv.Atoi: parsing " ++ s ++ ": invalid syntax")
    | some n =>
      let v : Int := if neg then -(n : Int) else (n : Int)
      if v < -(2 ^ 63) ∨ v > 2 ^ 63 - 1 then
        Except.error ("strconv.Atoi: parsing " ++ s ++ ": value out of range")
      else Except.ok v

/-- Go `strconv.Itoa` on an `int64`-valued `int`. -/
def Itoa (v : Int) : String := toString v

def ServiceEntry_RESOURCE_TYPE_ICMPTYPESERVICEENTRY : String := "ICMPTypeServiceEntry"

def ServiceEntry_RESOURCE_TYPE_L4PORTSETSERVICEENTRY : String := "L4PortSetServiceEntry"

def ServiceEntry_RESOURCE_TYPE_IGMPTYPESERVICEENTRY : String := "IGMPTypeServiceEntry"

def ServiceEntry_RESOURCE_TYPE_ETHERTYPESERVICEENTRY : String := "EtherTypeServiceEntry"

def ServiceEntry_RESOURCE_TYPE_IPPROTOCOLSERVICEENTRY : String := "IPProtocolServiceEntry"

def ServiceEntry_RESOURCE_TYPE_ALGTYPESERVICEENTRY : String := "ALGTypeServiceEntry"

/-! ### Configuration side (the flat Terraform schema) -/

/-- One element of the `icmp_entry` set: `display_name`, `description`,
`protocol` (required string), `icmp_type` and `icmp_code` (optional
string-encoded integers, empty string meaning absent). -/
structure IcmpEntryCfg where
  display_name : String
  description : String
  protocol : String
  icmp_type : String
  icmp_code : String
  deriving DecidableEq

/-- One element of the `l4_port_set_entry` set. -/
structure L4EntryCfg where
  display_name : String
  description : String
  destination_ports : List String
  source_ports : List String
  protocol : String
  deriving DecidableEq

/-- One element of the `igmp_entry` set. -/
structure IgmpEntryCfg where
  display_name : String
  description : String
  deriving DecidableEq

/-- One element of the `ether_type_entry` set. -/
structure EtherEntryCfg where
  display_name : String
  description : String
  ether_type : Int
  deriving DecidableEq

/-- One element of the `ip_protocol_entry` set. -/
structure IpProtEntryCfg where
  display_name : String
  description : String
  protocol : Int
  deriving DecidableEq

/-- One element of the `algorithm_entry` set. -/
structure AlgEntryCfg where
  display_name : String
  description : String
  destination_port : String
  source_ports : List String
  algorithm : String
  deriving DecidableEq

/-- The flat resource configuration (`schema.ResourceData`) as far as the
service resource reads it: service-level scalars plus the six per-variant
entry collections. -/
structure ServiceConfig where
  nsx_id : String
  display_name : String
  description : String
  revision : Int
  icmp_entry : List IcmpEntryCfg
  l4_port_set_entry : List L4EntryCfg
  igmp_entry : List IgmpEntryCfg
  ether_type_entry : List EtherEntryCfg
  ip_protocol_entry : List IpProtEntryCfg
  algorithm_entry : List AlgEntryCfg
  deriving DecidableEq

/-! ### Wire side (the SDK model structs and the opaque struct value) -/

/-- SDK `model.ICMPTypeServiceEntry`; pointer fields are `Option`. -/
structure ICMPTypeServiceEntry where
  Id : Option String
  DisplayName : Option String
  Description : Option String
  IcmpType : Option Int
  IcmpCode : Option Int
  Protocol : String
  ResourceType : String
  deriving DecidableEq

/-- SDK `model.L4PortSetServiceEntry`. -/
structure L4PortSetServiceEntry where
  Id : Option String
  DisplayName : Option String
  Description : Option String
  DestinationPorts : List String
  SourcePorts : List String
  L4Protocol : String
  ResourceType : String
  deriving DecidableEq

/-- SDK `model.IGMPTypeServiceEntry`. -/
structure IGMPTypeServiceEntry where
  Id : Option String
  DisplayName : Option String
  Description : Option String
  ResourceType : String
  deriving DecidableEq

/-- SDK `model.EtherTypeServiceEntry`. -/
structure EtherTypeServiceEntry where
  Id : Option String
  DisplayName : Option String
  Description : Option String
  EtherType : Int
  ResourceType : String
  deriving DecidableEq

/-- SDK `model.IPProtocolServiceEntry`. -/
structure IPProtocolServiceEntry where
  Id : Option String
  DisplayName : Option String
  Description : Option String
  ProtocolNumber : Int
  ResourceType : String
  deriving DecidableEq

/-- SDK `model.ALGTypeServiceEntry`. -/
structure ALGTypeServiceEntry where
  Id : Option String
  DisplayName : Option String
  Description : Option String
  Alg : String
  DestinationPorts : List String
  SourcePorts : List String
  ResourceType : String
  deriving DecidableEq

/-- The opaque `data.StructValue` wire record. A struct value produced by
`ConvertToVapi` carries exactly one variant's structure; `unknown` stands for
a remote record that structurally matches none of the six variant binding
types (its payload is irrelevant to the codec). -/
inductive StructValue where
  | icmp (e : ICMPTypeServiceEntry)
  | l4 (e : L4PortSetServiceEntry)
  | igmp (e : IGMPTypeServiceEntry)
  | ether (e : EtherTypeServiceEntry)
  | ipProt (e : IPProtocolServiceEntry)
  | alg (e : ALGTypeServiceEntry)
  | unknown (raw : String)
  deriving DecidableEq

/-! ### Encode direction: `resourceNsxtPolicyServiceGetEntriesFromSchema` -/

/-- Helper `interface2StringList`: converts a `[]interface` of strings to
`[]string`; on an already-typed list it is the identity. -/
def interface2StringList (l : List String) : List String := l

/-- The `if entryData[field] != "" { strconv.Atoi ... }` pattern used for the
optional `icmp_type` / `icmp_code` fields: empty string stays absent,
non-empty is parsed and a parse failure aborts. -/
def parseOptIcmpField (s : String) : Except String (Option Int) :=
  if s ≠ "" then
    match Atoi s with
    | Except.error m => Except.error m
    | Except.ok v => Except.ok (some v)
  else Except.ok none

/-- The ICMP loop of `resourceNsxtPolicyServiceGetEntriesFromSchema`:
returns the records built so far, the next fresh-id counter, and the error
(if a field parse failed, the loop returns immediately with the records
appended up to that point). -/
def encodeIcmpEntries (gen : Nat → String) :
    List IcmpEntryCfg → Nat → List StructValue × Nat × Option String
  | [], k => ([], k, none)
  | e :: rest, k =>
    match parseOptIcmpField e.icmp_type with
    | Except.error m => ([], k, some m)
    | Except.ok typePtr =>
      match parseOptIcmpField e.icmp_code with
      | Except.error m => ([], k, some m)
      | Except.ok codePtr =>
        let id := gen k
        let rcd : StructValue := StructValue.icmp
          { Id := some id
            DisplayName := some e.display_name
            Description := some e.description
            IcmpType := typePtr
            IcmpCode := codePtr
            Protocol := e.protocol
            ResourceType := ServiceEntry_RESOURCE_TYPE_ICMPTYPESERVICEENTRY }
        let out := encodeIcmpEntries gen rest (k + 1)
        (rcd :: out.1, out.2.1, out.2.2)

/-- The L4 port-set loop (cannot fail: no field parsing). -/
def encodeL4Entries (gen : Nat → String) :
    List L4EntryCfg → Nat → List StructValue × Nat
  | [], k => ([], k)
  | e :: rest, k =>
    let id := gen k
    let rcd : StructValue := StructValue.l4
      { Id := some id
        DisplayName := some e.display_name
        Description := some e.description
        DestinationPorts := interface2StringList e.destination_ports
        SourcePorts := interface2StringList e.source_ports
        L4Protocol := e.protocol
        ResourceType := ServiceEntry_RESOURCE_TYPE_L4PORTSETSERVICEENTRY }
    let out := encodeL4Entries gen rest (k + 1)
    (rcd :: out.1, out.2)

/-- The IGMP loop. -/
def encodeIgmpEntries (gen : Nat → String) :
    List IgmpEntryCfg → Nat → List StructValue × Nat
  | [], k => ([], k)
  | e :: rest, k =>
    let id := gen k
    let rcd : StructValue := StructValue.igmp
      { Id := some id
        DisplayName := some e.display_name
        Description := some e.description
        ResourceType := ServiceEntry_RESOURCE_TYPE_IGMPTYPESERVICEENTRY }
    let out := encodeIgmpEntries gen rest (k + 1)
    (rcd :: out.1, out.2)

/-- The Ether-type loop. -/
def encodeEtherEntries (gen : Nat → String) :
    List EtherEntryCfg → Nat → List StructValue × Nat
  | [], k => ([], k)
  | e :: rest, k =>
    let id := gen k
    let rcd : StructValue := StructValue.ether
      { Id := some id
        DisplayName := some e.display_name
        Description := some e.description
        EtherType := e.ether_type
        ResourceType := ServiceEntry_RESOURCE_TYPE_ETHERTYPESERVICEENTRY }
    let out := encodeEtherEntries gen rest (k + 1)
    (rcd :: out.1, out.2)

/-- The IP-protocol loop. -/
def encodeIpProtEntries (gen : Nat → String) :
    List IpProtEntryCfg → Nat → List StructValue × Nat
  | [], k => ([], k)
  | e :: rest, k =>
    let id := gen k
    let rcd : StructValue := StructValue.ipProt
      { Id := some id
        DisplayName := some e.display_name
        Description := some e.description
        ProtocolNumber := e.protocol
        ResourceType := ServiceEntry_RESOURCE_TYPE_IPPROTOCOLSERVICEENTRY }
    let out := encodeIpProtEntries gen rest (k + 1)
    (rcd :: out.1, out.2)

/-- The Algorithm loop. `destinationPorts` is built as the singleton list
holding the single configured `destination_port`. -/
def encodeAlgEntries (gen : Nat → String) :
    List AlgEntryCfg → Nat → List StructValue × Nat
  | [], k => ([], k)
  | e :: rest, k =>
    let destinationPorts := [e.destination_port]
    let id := gen k
    let rcd : StructValue := StructValue.alg
      { Id := some id
        DisplayName := some e.display_name
        Description := some e.description
        Alg := e.algorithm
        DestinationPorts := destinationPorts
        SourcePorts := interface2StringList e.source_ports
        ResourceType := ServiceEntry_RESOURCE_TYPE_ALGTYPESERVICEENTRY }
    let out := encodeAlgEntries gen rest (k + 1)
    (rcd :: out.1, out.2)

/-- `resourceNsxtPolicyServiceGetEntriesFromSchema`: processes the six
collections in the source's fixed order ICMP, L4 port-set, IGMP, Ether-type,
IP-protocol, Algorithm, appending each collection's records in turn. Returns
the (possibly partial) record list together with the error, mirroring the Go
signature `([]*data.StructValue, error)`: on an ICMP field-parse failure the
function returns at once with the records appended so far and the error. -/
def resourceNsxtPolicyServiceGetEntriesFromSchema (gen : Nat → String)
    (d : ServiceConfig) : List StructValue × Option String :=
  let icmpOut := encodeIcmpEntries gen d.icmp_entry 0
  match icmpOut.2.2 with
  | some m => (icmpOut.1, some m)
  | none =>
    let l4Out := encodeL4Entries gen d.l4_port_set_entry icmpOut.2.1
    let igmpOut := encodeIgmpEntries gen d.igmp_entry l4Out.2
    let etherOut := encodeEtherEntries gen d.ether_type_entry igmpOut.2
    let ipProtOut := encodeIpProtEntries gen d.ip_protocol_entry etherOut.2
    let algOut := encodeAlgEntries gen d.algorithm_entry ipProtOut.2
    (icmpOut.1 ++ l4Out.1 ++ igmpOut.1 ++ etherOut.1 ++ ipProtOut.1 ++ algOut.1,
      none)

/-! ### Decode direction: the entry-translation loop of
`resourceNsxtPolicyServiceRead` -/

/-- `filterServiceEntryDisplayName`: a display name equal to the entry's id
was defaulted by the remote side and is suppressed. -/
def filterServiceEntryDisplayName (entryDisplayName : String)
    (entryID : String) : String :=
  if entryDisplayName = entryID then "" else entryDisplayName

/-- The `elem` map built for a decoded ICMP record. `description` keeps the
Go `*string` (the code stores the pointer itself into the map). -/
structure IcmpElem where
  display_name : String
  description : Option String
  icmp_type : String
  icmp_code : String
  protocol : String
  deriving DecidableEq

/-- The `elem` map built for a decoded L4 port-set record. -/
structure L4Elem where
  display_name : String
  description : Option String
  destination_ports : List String
  source_ports : List String
  protocol : String
  deriving DecidableEq

/-- The `elem` map built for a decoded IGMP record. -/
structure IgmpElem where
  display_name : String
  description : Option String
  deriving DecidableEq

/-- The `elem` map built for a decoded Ether-type record. -/
structure EtherElem where
  display_name : String
  description : Option String
  ether_type : Int
  deriving DecidableEq

/-- The `elem` map built for a decoded IP-protocol record. -/
structure IpProtElem where
  display_name : String
  description : Option String
  protocol : Int
  deriving DecidableEq

/-- The `elem` map built for a decoded Algorithm record. -/
structure AlgElem where
  display_name : String
  description : Option String
  algorithm : String
  destination_port : String
  source_ports : List String
  deriving DecidableEq

/-- A successfully classified entry: the variant the trial chain accepted
together with the `elem` map built for it. -/
inductive DecodedEntry where
  | icmp (e : IcmpElem)
  | l4 (e : L4Elem)
  | igmp (e : IgmpElem)
  | ether (e : EtherElem)
  | ipProt (e : IpProtElem)
  | alg (e : AlgElem)
  deriving DecidableEq

/-- Outcome of translating one wire record: `crash` models a Go runtime
panic (nil-pointer dereference or out-of-range index), which aborts the whole
read without producing an error value; `fail` models a returned error. -/
inductive DecodeOutcome where
  | crash
  | fail (msg : String)
  | ok (e : DecodedEntry)
  deriving DecidableEq

/-- `converter.ConvertToGolang(entry, model.ICMPTypeServiceEntryBindingType())`:
succeeds exactly when the struct value structurally is an ICMP entry. -/
def tryConvertICMP : StructValue → Option ICMPTypeServiceEntry
  | StructValue.icmp e => some e
  | _ => none

/-- Structural conversion to `L4PortSetServiceEntry`. -/
def tryConvertL4 : StructValue → Option L4PortSetServiceEntry
  | StructValue.l4 e => some e
  | _ => none

/-- Structural conversion to `EtherTypeServiceEntry`. -/
def tryConvertEther : StructValue → Option EtherTypeServiceEntry
  | StructValue.ether e => some e
  | _ => none

/-- Structural conversion to `IPProtocolServiceEntry`. -/
def tryConvertIpProt : StructValue → Option IPProtocolServiceEntry
  | StructValue.ipProt e => some e
  | _ => none

/-- Structural conversion to `ALGTypeServiceEntry`. -/
def tryConvertAlg : StructValue → Option ALGTypeServiceEntry
  | StructValue.alg e => some e
  | _ => none

/-- Structural conversion to `IGMPTypeServiceEntry`. -/
def tryConvertIGMP : StructValue → Option IGMPTypeServiceEntry
  | StructValue.igmp e => some e
  | _ => none

/-- Modelled from the spec (the converter is an external SDK collaborator):
the recoverable error produced by the failed final conversion attempt to
`IGMPTypeServiceEntry` (`igmpErrs[0]` in the source). -/
def igmpConversionError : String :=
  "cannot convert data value to IGMPTypeServiceEntry"

/-- The body of the `for _, entry := range obj.ServiceEntries` loop: a chain
of conversion trials in the source's order ICMP, L4 port-set, Ether-type,
IP-protocol, Algorithm, IGMP; the first successful conversion's branch builds
the `elem` map. Pointer dereferences of `DisplayName` / `Id` (all variants)
and the index `DestinationPorts[0]` (Algorithm) crash when their operand is
nil / empty. If every trial fails, the final trial's error is returned. -/
def decodeOne (v : StructValue) : DecodeOutcome :=
  match tryConvertICMP v with
  | some se =>
    match se.DisplayName, se.Id with
    | some dn, some i =>
      DecodeOutcome.ok (DecodedEntry.icmp
        { display_name := filterServiceEntryDisplayName dn i
          description := se.Description
          icmp_type := match se.IcmpType with
            | some t => Itoa t
            | none => ""
          icmp_code := match se.IcmpCode with
            | some c => Itoa c
            | none => ""
          protocol := se.Protocol })
    | _, _ => DecodeOutcome.crash
  | none =>
  match tryConvertL4 v with
  | some se =>
    match se.DisplayName, se.Id with
    | some dn, some i =>
      DecodeOutcome.ok (DecodedEntry.l4
        { display_name := filterServiceEntryDisplayName dn i
          description := se.Description
          destination_ports := se.DestinationPorts
          source_ports := se.SourcePorts
          protocol := se.L4Protocol })
    | _, _ => DecodeOutcome.crash
  | none =>
  match tryConvertEther v with
  | some se =>
    match se.DisplayName, se.Id with
    | some dn, some i =>
      DecodeOutcome.ok (DecodedEntry.ether
        { display_name := filterServiceEntryDisplayName dn i
          description := se.Description
          ether_type := se.EtherType })
    | _, _ => DecodeOutcome.crash
  | none =>
  match tryConvertIpProt v with
  | some se =>
    match se.DisplayName, se.Id with
    | some dn, some i =>
      DecodeOutcome.ok (DecodedEntry.ipProt
        { display_name := filterServiceEntryDisplayName dn i
          description := se.Description
          protocol := se.ProtocolNumber })
    | _, _ => DecodeOutcome.crash
  | none =>
  match tryConvertAlg v with
  | some se =>
    match se.DisplayName, se.Id with
    | some dn, some i =>
      match se.DestinationPorts with
      | dp0 :: _ =>
        DecodeOutcome.ok (DecodedEntry.alg
          { display_name := filterServiceEntryDisplayName dn i
            description := se.Description
            algorithm := se.Alg
            destination_port := dp0
            source_ports := se.SourcePorts })
      | [] => DecodeOutcome.crash
    | _, _ => DecodeOutcome.crash
  | none =>
  match tryConvertIGMP v with
  | some se =>
    match se.DisplayName, se.Id with
    | some dn, some i =>
      DecodeOutcome.ok (DecodedEntry.igmp
        { display_name := filterServiceEntryDisplayName dn i
          description := se.Description })
    | _, _ => DecodeOutcome.crash
  | none => DecodeOutcome.fail igmpConversionError

/-- The six per-variant result collections the read loop accumulates. -/
structure DecodedLists where
  icmpEntriesList : List IcmpElem
  l4EntriesList : List L4Elem
  igmpEntriesList : List IgmpElem
  etherEntriesList : List EtherElem
  ipProtEntriesList : List IpProtElem
  algEntriesList : List AlgElem
  deriving DecidableEq

/-- The empty result collections (the loop's initial state). -/
def emptyDecodedLists : DecodedLists := ⟨[], [], [], [], [], []⟩

/-- Append a classified entry to the result collection matching its variant
(here: prepend, since the loop is modelled by recursion from the front). -/
def consEntry (e : DecodedEntry) (ls : DecodedLists) : DecodedLists :=
  match e with
  | DecodedEntry.icmp x => { ls with icmpEntriesList := x :: ls.icmpEntriesList }
  | DecodedEntry.l4 x => { ls with l4EntriesList := x :: ls.l4EntriesList }
  | DecodedEntry.igmp x => { ls with igmpEntriesList := x :: ls.igmpEntriesList }
  | DecodedEntry.ether x => { ls with etherEntriesList := x :: ls.etherEntriesList }
  | DecodedEntry.ipProt x => { ls with ipProtEntriesList := x :: ls.ipProtEntriesList }
  | DecodedEntry.alg x => { ls with algEntriesList := x :: ls.algEntriesList }

/-- Outcome of the whole translation loop over `obj.ServiceEntries`. -/
inductive ReadOutcome where
  | crash
  | fail (msg : String)
  | ok (ls : DecodedLists)
  deriving DecidableEq

/-- The translation loop of `resourceNsxtPolicyServiceRead`: each record is
classified in turn; a crash or a returned error aborts immediately, records
after it are not examined. -/
def decodeEntriesList : List StructValue → ReadOutcome
  | [] => ReadOutcome.ok emptyDecodedLists
  | v :: rest =>
    match decodeOne v with
    | DecodeOutcome.crash => ReadOutcome.crash
    | DecodeOutcome.fail m => ReadOutcome.fail m
    | DecodeOutcome.ok e =>
      match decodeEntriesList rest with
      | ReadOutcome.crash => ReadOutcome.crash
      | ReadOutcome.fail m => ReadOutcome.fail m
      | ReadOutcome.ok ls => ReadOutcome.ok (consEntry e ls)

/-! ### Variant classification helpers (for stating the trial-order claim) -/

/-- The six service-entry variants. -/
inductive EntryVariant where
  | icmp
  | l4
  | ether
  | ipProt
  | alg
  | igmp
  deriving DecidableEq

/-- Whether a structural decode of `v` at variant `t` succeeds. -/
def structuralDecodeSucceeds (t : EntryVariant) (v : StructValue) : Bool :=
  match t with
  | EntryVariant.icmp => (tryConvertICMP v).isSome
  | EntryVariant.l4 => (tryConvertL4 v).isSome
  | EntryVariant.ether => (tryConvertEther v).isSome
  | EntryVariant.ipProt => (tryConvertIpProt v).isSome
  | EntryVariant.alg => (tryConvertAlg v).isSome
  | EntryVariant.igmp => (tryConvertIGMP v).isSome

/-- The fixed trial order of the decode chain, as the spec states it. -/
def decodeTrialOrder : List EntryVariant :=
  [EntryVariant.icmp, EntryVariant.l4, EntryVariant.ether,
   EntryVariant.ipProt, EntryVariant.alg, EntryVariant.igmp]

/-- The first variant (in trial order) whose structural decode succeeds. -/
def firstSuccessfulVariant (v : StructValue) : Option EntryVariant :=
  decodeTrialOrder.find? (fun t => structuralDecodeSucceeds t v)

/-- The variant a classified entry was filed under. -/
def DecodedEntry.variant : DecodedEntry → EntryVariant
  | DecodedEntry.icmp _ => EntryVariant.icmp
  | DecodedEntry.l4 _ => EntryVariant.l4
  | DecodedEntry.igmp _ => EntryVariant.igmp
  | DecodedEntry.ether _ => EntryVariant.ether
  | DecodedEntry.ipProt _ => EntryVariant.ipProt
  | DecodedEntry.alg _ => EntryVariant.alg

/-- The display name stored in a classified entry's `elem` map. -/
def DecodedEntry.decodedDisplayName : DecodedEntry → String
  | DecodedEntry.icmp e => e.display_name
  | DecodedEntry.l4 e => e.display_name
  | DecodedEntry.igmp e => e.display_name
  | DecodedEntry.ether e => e.display_name
  | DecodedEntry.ipProt e => e.display_name
  | DecodedEntry.alg e => e.display_name

/-- The wire record's display-name pointer, uniformly over the variants. -/
def StructValue.wireDisplayName : StructValue → Option String
  | StructValue.icmp e => e.DisplayName
  | StructValue.l4 e => e.DisplayName
  | StructValue.igmp e => e.DisplayName
  | StructValue.ether e => e.DisplayName
  | StructValue.ipProt e => e.DisplayName
  | StructValue.alg e => e.DisplayName
  | StructValue.unknown _ => none

/-- The wire record's id pointer, uniformly over the variants. -/
def StructValue.wireId : StructValue → Option String
  | StructValue.icmp e => e.Id
  | StructValue.l4 e => e.Id
  | StructValue.igmp e => e.Id
  | StructValue.ether e => e.Id
  | StructValue.ipProt e => e.Id
  | StructValue.alg e => e.Id
  | StructValue.unknown _ => none

/-- Number of entries filed under variant `t`. -/
def listCount (t : EntryVariant) (ls : DecodedLists) : Nat :=
  match t with
  | EntryVariant.icmp => ls.icmpEntriesList.length
  | EntryVariant.l4 => ls.l4EntriesList.length
  | EntryVariant.igmp => ls.igmpEntriesList.length
  | EntryVariant.ether => ls.etherEntriesList.length
  | EntryVariant.ipProt => ls.ipProtEntriesList.length
  | EntryVariant.alg => ls.algEntriesList.length

/-! ### The CRUD handlers around the codec -/

/-- The `model.Service` payload the write handlers build (tags omitted: the
tag helpers are external collaborators and no claim concerns them). -/
structure Service where
  DisplayName : Option String
  Description : Option String
  ServiceEntries : List StructValue
  Revision : Option Int
  deriving DecidableEq

/-- A remote write the handlers can issue: `Patch` (create-or-replace, used
by the create handler) or `Update` (used by the update handler). -/
inductive RemoteWriteCall where
  | patchService (id : String) (obj : Service)
  | updateService (id : String) (obj : Service)
  deriving DecidableEq

/-- Modelled from the spec: `getOrGenerateID` (resource-level lifecycle
orchestration / identifier-generation service, not part of this source file)
takes the user-supplied `nsx_id` when present and otherwise a freshly
generated collision-resistant identifier. -/
def getOrGenerateID (nsxID : String) (freshID : String) : String :=
  if nsxID = "" then freshID else nsxID

/-- Modelled from the spec: `handleCreateError` (generic error-classification
helper, not part of this source file) wraps a remote create failure. -/
def handleCreateError (resourceType : String) (id : String)
    (apiErr : String) : String :=
  "Failed to create " ++ resourceType ++ " " ++ id ++ ": " ++ apiErr

/-- Modelled from the spec: `handleUpdateError` wraps a remote update
failure. -/
def handleUpdateError (resourceType : String) (id : String)
    (apiErr : String) : String :=
  "Failed to update " ++ resourceType ++ " " ++ id ++ ": " ++ apiErr

/-- Modelled from the spec: `handleDeleteError` wraps a remote delete
failure. -/
def handleDeleteError (resourceType : String) (id : String)
    (apiErr : String) : String :=
  "Failed to delete " ++ resourceType ++ " " ++ id ++ ": " ++ apiErr

/-- `resourceNsxtPolicyServiceCreate` up to the remote write: resolves the
id, encodes the entries (wrapping a conversion failure in the contextual
message and returning before any write), then issues the `Patch`
create-or-replace call. `remotePatchResult` is the error the remote client
would return for that call; the follow-up state-setting and re-read are
outside the model. Result: the handler's returned error and the list of
remote writes it performed. -/
def resourceNsxtPolicyServiceCreate (gen : Nat → String) (freshID : String)
    (cfg : ServiceConfig) (remotePatchResult : Option String) :
    Option String × List RemoteWriteCall :=
  let id := getOrGenerateID cfg.nsx_id freshID
  let displayName := cfg.display_name
  let description := cfg.description
  let encodeOut := resourceNsxtPolicyServiceGetEntriesFromSchema gen cfg
  match encodeOut.2 with
  | some errc => (some ("Error during Service entries conversion: " ++ errc), [])
  | none =>
    let obj : Service :=
      { DisplayName := some displayName
        Description := some description
        ServiceEntries := encodeOut.1
        Revision := none }
    match remotePatchResult with
    | some apiErr =>
      (some (handleCreateError "Service" id apiErr),
        [RemoteWriteCall.patchService id obj])
    | none => (none, [RemoteWriteCall.patchService id obj])

/-- `resourceNsxtPolicyServiceUpdate` up to the remote write: requires a
non-empty resource id, encodes the entries (wrapping a conversion failure in
the contextual message and returning before any write), then issues the
`Update` full-replace call carrying the revision. -/
def resourceNsxtPolicyServiceUpdate (gen : Nat → String) (resourceID : String)
    (cfg : ServiceConfig) (remoteUpdateResult : Option String) :
    Option String × List RemoteWriteCall :=
  if resourceID = "" then (some "Error obtaining service id", [])
  else
    let displayName := cfg.display_name
    let description := cfg.description
    let revision := cfg.revision
    let encodeOut := resourceNsxtPolicyServiceGetEntriesFromSchema gen cfg
    match encodeOut.2 with
    | some errc => (some ("Error during Service entries conversion: " ++ errc), [])
    | none =>
      let obj : Service :=
        { DisplayName := some displayName
          Description := some description
          ServiceEntries := encodeOut.1
          Revision := some revision }
      match remoteUpdateResult with
      | some apiErr =>
        (some (handleUpdateError "Service" resourceID apiErr),
          [RemoteWriteCall.updateService resourceID obj])
      | none => (none, [RemoteWriteCall.updateService resourceID obj])

/-- `resourceNsxtPolicyServiceDelete`: a remote delete failure is wrapped by
`handleDeleteError` and assigned back to the local `err` variable, but the
function unconditionally returns nil afterwards. `remoteDeleteResult` is the
error the remote `Delete` call returns. -/
def resourceNsxtPolicyServiceDelete (resourceID : String)
    (remoteDeleteResult : Option String) : Option String :=
  if resourceID = "" then some "Error obtaining service id"
  else
    match remoteDeleteResult with
    | some e =>
      let _err := handleDeleteError "Service" resourceID e
      none
    | none => none

/-! ### Derived definitions used to state the claims -/

/-- The first field-parse error of an ICMP configuration entry (type field
first, then code field), `none` when both optional fields parse. -/
def icmpEntryParseError (e : IcmpEntryCfg) : Option String :=
  match parseOptIcmpField e.icmp_type with
  | Except.error m => some m
  | Except.ok _ =>
    match parseOptIcmpField e.icmp_code with
    | Except.error m => some m
    | Except.ok _ => none

/-- How the read loop renders an optional ICMP integer field back to the
configuration string: decimal rendering when present, empty when absent. -/
def renderOptIcmpField (o : Option Int) : String :=
  match o with
  | some t => Itoa t
  | none => ""

/-- An optional integer-as-string configuration value is canonical when it is
empty or survives parse-then-render unchanged ("7" is canonical, "007" and
"+7" are not, though all three parse). -/
def isCanonicalOptIntString (s : String) : Bool :=
  if s = "" then true
  else
    match Atoi s with
    | Except.ok v => Itoa v == s
    | Except.error _ => false

/-- All display names appearing in the six entry collections of a
configuration. -/
def configDisplayNames (cfg : ServiceConfig) : List String :=
  cfg.icmp_entry.map (fun e => e.display_name) ++
  cfg.l4_port_set_entry.map (fun e => e.display_name) ++
  cfg.igmp_entry.map (fun e => e.display_name) ++
  cfg.ether_type_entry.map (fun e => e.display_name) ++
  cfg.ip_protocol_entry.map (fun e => e.display_name) ++
  cfg.algorithm_entry.map (fun e => e.display_name)

/-- Variant-wise concatenation of decoded result collections. -/
def combineLists (a b : DecodedLists) : DecodedLists :=
  ⟨a.icmpEntriesList ++ b.icmpEntriesList,
   a.l4EntriesList ++ b.l4EntriesList,
   a.igmpEntriesList ++ b.igmpEntriesList,
   a.etherEntriesList ++ b.etherEntriesList,
   a.ipProtEntriesList ++ b.ipProtEntriesList,
   a.algEntriesList ++ b.algEntriesList⟩

/-- The configuration map a decoded ICMP record is expected to reproduce
from its originating configuration entry (round-trip claim). -/
def expectedIcmpElem (e : IcmpEntryCfg) : IcmpElem :=
  { display_name := e.display_name
    description := some e.description
    icmp_type := e.icmp_type
    icmp_code := e.icmp_code
    protocol := e.protocol }

/-- Expected round-trip map for an L4 port-set entry. -/
def expectedL4Elem (e : L4EntryCfg) : L4Elem :=
  { display_name := e.display_name
    description := some e.description
    destination_ports := e.destination_ports
    source_ports := e.source_ports
    protocol := e.protocol }

/-- Expected round-trip map for an IGMP entry. -/
def expectedIgmpElem (e : IgmpEntryCfg) : IgmpElem :=
  { display_name := e.display_name
    description := some e.description }

/-- Expected round-trip map for an Ether-type entry. -/
def expectedEtherElem (e : EtherEntryCfg) : EtherElem :=
  { display_name := e.display_name
    description := some e.description
    ether_type := e.ether_type }

/-- Expected round-trip map for an IP-protocol entry. -/
def expectedIpProtElem (e : IpProtEntryCfg) : IpProtElem :=
  { display_name := e.display_name
    description := some e.description
    protocol := e.protocol }

/-- Expected round-trip map for an Algorithm entry. -/
def expectedAlgElem (e : AlgEntryCfg) : AlgElem :=
  { display_name := e.display_name
    description := some e.description
    algorithm := e.algorithm
    destination_port := e.destination_port
    source_ports := e.source_ports }

/-! ### Claim theorems -/

/-- C10: for every invocation with a non-empty resource identifier, the
delete handler returns nil regardless of the remote delete call's outcome:
a remote error is wrapped by the error handler but never propagated. -/
theorem delete_returns_nil_despite_remote_error (resourceID : String)
    (remoteDeleteResult : Option String) (h : resourceID ≠ "") :
    resourceNsxtPolicyServiceDelete resourceID remoteDeleteResult = none := by
  cases remoteDeleteResult <;>
    simp [resourceNsxtPolicyServiceDelete, h]

/-- Witness for C10: deleting id "a" while the remote delete fails with
"connection reset" still returns nil. -/
theorem delete_returns_nil_despite_remote_error_witness :
    ("a" : String) ≠ "" ∧
      resourceNsxtPolicyServiceDelete "a" (some "connection reset") = none :=
  ⟨by decide,
    delete_returns_nil_despite_remote_error "a" (some "connection reset")
      (by decide)⟩

/-- C9: translating an Algorithm-shaped record crashes (Go runtime panic,
not a returned error value) exactly when its destination-ports list is empty
or its display-name or id pointer is nil; and such a crash aborts the whole
read loop with a crash, not an error result. -/
theorem alg_decode_crash_characterisation (se : ALGTypeServiceEntry)
    (rest : List StructValue) :
    (decodeOne (StructValue.alg se) = DecodeOutcome.crash ↔
      (se.DestinationPorts = [] ∨ se.DisplayName = none ∨ se.Id = none)) ∧
    (decodeOne (StructValue.alg se) = DecodeOutcome.crash →
      decodeEntriesList (StructValue.alg se :: rest) = ReadOutcome.crash) := by
  constructor
  · rcases hdn : se.DisplayName with _ | dn <;>
      rcases hid : se.Id with _ | i <;>
      rcases hdp : se.DestinationPorts with _ | ⟨p, ps⟩ <;>
      simp [decodeOne, tryConvertICMP, tryConvertL4, tryConvertEther,
        tryConvertIpProt, tryConvertAlg, tryConvertIGMP, hdn, hid, hdp]
  · intro h
    simp [decodeEntriesList, h]

/-- Witness for C9: a concrete Algorithm record with non-nil name and id but
an empty destination-ports list crashes the read loop. -/
theorem alg_decode_crash_characterisation_witness :
    decodeOne (StructValue.alg
      ⟨some "e1", some "e1", some "", "FTP", [], [], "ALGTypeServiceEntry"⟩) =
        DecodeOutcome.crash ∧
    decodeEntriesList [StructValue.alg
      ⟨some "e1", some "e1", some "", "FTP", [], [], "ALGTypeServiceEntry"⟩] =
        ReadOutcome.crash := by
  have h := alg_decode_crash_characterisation
    ⟨some "e1", some "e1", some "", "FTP", [], [], "ALGTypeServiceEntry"⟩ []
  have hc : decodeOne (StructValue.alg
      ⟨some "e1", some "e1", some "", "FTP", [], [], "ALGTypeServiceEntry"⟩) =
      DecodeOutcome.crash := h.1.mpr (Or.inl rfl)
  exact ⟨hc, h.2 hc⟩

/-- C3: for every wire record of any of the six variants whose display-name
and id pointers are set, the display name written to the configuration map is
empty when the display name equals the id and is the display name verbatim
otherwise. -/
theorem decoded_display_name_filtered (v : StructValue) (e : DecodedEntry)
    (dn i : String) (h : decodeOne v = DecodeOutcome.ok e)
    (hdn : v.wireDisplayName = some dn) (hi : v.wireId = some i) :
    e.decodedDisplayName = (if dn = i then "" else dn) := by
  cases v <;>
    simp [StructValue.wireDisplayName, StructValue.wireId] at hdn hi
  case icmp se =>
    simp [decodeOne, tryConvertICMP, hdn, hi] at h
    simp [← h, DecodedEntry.decodedDisplayName, filterServiceEntryDisplayName]
  case l4 se =>
    simp [decodeOne, tryConvertICMP, tryConvertL4, hdn, hi] at h
    simp [← h, DecodedEntry.decodedDisplayName, filterServiceEntryDisplayName]
  case igmp se =>
    simp [decodeOne, tryConvertICMP, tryConvertL4, tryConvertEther,
      tryConvertIpProt, tryConvertAlg, tryConvertIGMP, hdn, hi] at h
    simp [← h, DecodedEntry.decodedDisplayName, filterServiceEntryDisplayName]
  case ether se =>
    simp [decodeOne, tryConvertICMP, tryConvertL4, tryConvertEther, hdn, hi] at h
    simp [← h, DecodedEntry.decodedDisplayName, filterServiceEntryDisplayName]
  case ipProt se =>
    simp [decodeOne, tryConvertICMP, tryConvertL4, tryConvertEther,
      tryConvertIpProt, hdn, hi] at h
    simp [← h, DecodedEntry.decodedDisplayName, filterServiceEntryDisplayName]
  case alg se =>
    rcases hdp : se.DestinationPorts with _ | ⟨p, ps⟩ <;>
      simp [decodeOne, tryConvertICMP, tryConvertL4, tryConvertEther,
        tryConvertIpProt, tryConvertAlg, hdn, hi, hdp] at h
    simp [← h, DecodedEntry.decodedDisplayName, filterServiceEntryDisplayName]

/-- Witness for C3: an IGMP record whose display name equals its id decodes
to an empty display name. -/
theorem decoded_display_name_filtered_witness :
    decodeOne (StructValue.igmp ⟨some "x1", some "x1", some "", "IGMPTypeServiceEntry"⟩) =
      DecodeOutcome.ok (DecodedEntry.igmp ⟨"", some ""⟩) ∧
    (DecodedEntry.igmp ⟨"", some ""⟩).decodedDisplayName =
      (if ("x1" : String) = "x1" then "" else "x1") := by
  refine ⟨by decide, ?_⟩
  exact decoded_display_name_filtered
    (StructValue.igmp ⟨some "x1", some "x1", some "", "IGMPTypeServiceEntry"⟩)
    (DecodedEntry.igmp ⟨"", some ""⟩) "x1" "x1" (by decide) (by decide) (by decide)

/-- C2: an ICMP configuration entry with empty `icmp_type` and `icmp_code`
encodes with both wire fields absent (nil pointers, not zero), and a decoded
ICMP record with absent type and code yields empty strings (not "0") in the
configuration map. -/
theorem icmp_empty_optionals (gen : Nat → String) (e : IcmpEntryCfg) (k : Nat)
    (se : ICMPTypeServiceEntry) (dn i : String)
    (h1 : e.icmp_type = "") (h2 : e.icmp_code = "")
    (hdn : se.DisplayName = some dn) (hid : se.Id = some i)
    (ht : se.IcmpType = none) (hc : se.IcmpCode = none) :
    encodeIcmpEntries gen [e] k =
      ([StructValue.icmp
        { Id := some (gen k)
          DisplayName := some e.display_name
          Description := some e.description
          IcmpType := none
          IcmpCode := none
          Protocol := e.protocol
          ResourceType := ServiceEntry_RESOURCE_TYPE_ICMPTYPESERVICEENTRY }],
        k + 1, none) ∧
    decodeOne (StructValue.icmp se) = DecodeOutcome.ok (DecodedEntry.icmp
      { display_name := filterServiceEntryDisplayName dn i
        description := se.Description
        icmp_type := ""
        icmp_code := ""
        protocol := se.Protocol }) := by
  constructor
  · simp [encodeIcmpEntries, parseOptIcmpField, h1, h2]
  · simp [decodeOne, tryConvertICMP, hdn, hid, ht, hc]

/-- Witness for C2 at a concrete entry and a concrete absent-field record. -/
theorem icmp_empty_optionals_witness :
    ("" : String) = "" ∧
    encodeIcmpEntries (fun k => Itoa (Int.ofNat k)) [⟨"n", "d", "ICMPv4", "", ""⟩] 0 =
      ([StructValue.icmp
        { Id := some "0"
          DisplayName := some "n"
          Description := some "d"
          IcmpType := none
          IcmpCode := none
          Protocol := "ICMPv4"
          ResourceType := ServiceEntry_RESOURCE_TYPE_ICMPTYPESERVICEENTRY }],
        1, none) ∧
    decodeOne (StructValue.icmp
        ⟨some "u", some "n", some "d", none, none, "ICMPv4", "ICMPTypeServiceEntry"⟩) =
      DecodeOutcome.ok (DecodedEntry.icmp
        { display_name := filterServiceEntryDisplayName "n" "u"
          description := some "d"
          icmp_type := ""
          icmp_code := ""
          protocol := "ICMPv4" }) := by
  have h := icmp_empty_optionals (fun k => Itoa (Int.ofNat k))
    ⟨"n", "d", "ICMPv4", "", ""⟩ 0
    ⟨some "u", some "n", some "d", none, none, "ICMPv4", "ICMPTypeServiceEntry"⟩
    "n" "u" rfl rfl rfl rfl rfl rfl
  exact ⟨rfl, h.1, h.2⟩

/-- In a successfully decoded record list, every record was classified by
some variant trial. -/
theorem decode_ok_all_classified : ∀ (l : List StructValue) (ls : DecodedLists),
    decodeEntriesList l = ReadOutcome.ok ls →
    ∀ v ∈ l, ∃ e, decodeOne v = DecodeOutcome.ok e := by
  intro l
  induction l with
  | nil => intro ls h v hv; simp at hv
  | cons x xs ih =>
    intro ls h v hv
    rcases hd : decodeOne x with _ | m | e <;> simp [decodeEntriesList, hd] at h
    rcases hrest : decodeEntriesList xs with _ | m | ls' <;> simp [hrest] at h
    rcases List.mem_cons.mp hv with rfl | hv
    · exact ⟨e, hd⟩
    · exact ih ls' hrest v hv

/-- C6: a wire record structurally matching none of the six variants makes
the translation fail immediately with the final (IGMP) trial's error; a list
containing such a record can never decode successfully, so the record is
never silently dropped into any output collection. -/
theorem unknown_record_rejected (raw : String) (vs rest : List StructValue)
    (ls : DecodedLists) :
    decodeOne (StructValue.unknown raw) = DecodeOutcome.fail igmpConversionError ∧
    decodeEntriesList (StructValue.unknown raw :: rest) =
      ReadOutcome.fail igmpConversionError ∧
    decodeEntriesList (vs ++ StructValue.unknown raw :: rest) ≠
      ReadOutcome.ok ls := by
  have hone : decodeOne (StructValue.unknown raw) =
      DecodeOutcome.fail igmpConversionError := by
    simp [decodeOne, tryConvertICMP, tryConvertL4, tryConvertEther,
      tryConvertIpProt, tryConvertAlg, tryConvertIGMP]
  refine ⟨hone, by simp [decodeEntriesList, hone], ?_⟩
  intro h
  obtain ⟨e, he⟩ := decode_ok_all_classified _ ls h (StructValue.unknown raw)
    (by simp)
  rw [hone] at he
  cases he

/-- C5: a record the read loop classifies was accepted by the first variant
(in the fixed trial order ICMP, L4 port-set, Ether-type, IP-protocol,
Algorithm, IGMP) whose structural decode succeeds, and it is appended to
exactly that variant's result collection. -/
theorem decode_trial_order_classification (v : StructValue) (e : DecodedEntry)
    (rest : List StructValue) (ls' : DecodedLists)
    (h : decodeOne v = DecodeOutcome.ok e)
    (hrest : decodeEntriesList rest = ReadOutcome.ok ls') :
    firstSuccessfulVariant v = some e.variant ∧
    ∃ ls, decodeEntriesList (v :: rest) = ReadOutcome.ok ls ∧
      ∀ t, listCount t ls = listCount t ls' +
        (if t = e.variant then 1 else 0) := by
  have hcons : decodeEntriesList (v :: rest) =
      ReadOutcome.ok (consEntry e ls') := by
    simp [decodeEntriesList, h, hrest]
  constructor
  · cases v
    case icmp se =>
      rcases hdn : se.DisplayName with _ | dn <;>
        rcases hid : se.Id with _ | i <;>
        simp [decodeOne, tryConvertICMP, hdn, hid] at h
      simp [← h, firstSuccessfulVariant, decodeTrialOrder,
        structuralDecodeSucceeds, tryConvertICMP, DecodedEntry.variant,
        List.find?]
    case l4 se =>
      rcases hdn : se.DisplayName with _ | dn <;>
        rcases hid : se.Id with _ | i <;>
        simp [decodeOne, tryConvertICMP, tryConvertL4, hdn, hid] at h
      simp [← h, firstSuccessfulVariant, decodeTrialOrder,
        structuralDecodeSucceeds, tryConvertICMP, tryConvertL4,
        DecodedEntry.variant, List.find?]
    case igmp se =>
      rcases hdn : se.DisplayName with _ | dn <;>
        rcases hid : se.Id with _ | i <;>
        simp [decodeOne, tryConvertICMP, tryConvertL4, tryConvertEther,
          tryConvertIpProt, tryConvertAlg, tryConvertIGMP, hdn, hid] at h
      simp [← h, firstSuccessfulVariant, decodeTrialOrder,
        structuralDecodeSucceeds, tryConvertICMP, tryConvertL4,
        tryConvertEther, tryConvertIpProt, tryConvertAlg, tryConvertIGMP,
        DecodedEntry.variant, List.find?]
    case ether se =>
      rcases hdn : se.DisplayName with _ | dn <;>
        rcases hid : se.Id with _ | i <;>
        simp [decodeOne, tryConvertICMP, tryConvertL4, tryConvertEther,
          hdn, hid] at h
      simp [← h, firstSuccessfulVariant, decodeTrialOrder,
        structuralDecodeSucceeds, tryConvertICMP, tryConvertL4,
        tryConvertEther, DecodedEntry.variant, List.find?]
    case ipProt se =>
      rcases hdn : se.DisplayName with _ | dn <;>
        rcases hid : se.Id with _ | i <;>
        simp [decodeOne, tryConvertICMP, tryConvertL4, tryConvertEther,
          tryConvertIpProt, hdn, hid] at h
      simp [← h, firstSuccessfulVariant, decodeTrialOrder,
        structuralDecodeSucceeds, tryConvertICMP, tryConvertL4,
        tryConvertEther, tryConvertIpProt, DecodedEntry.variant, List.find?]
    case alg se =>
      rcases hdn : se.DisplayName with _ | dn <;>
        rcases hid : se.Id with _ | i <;>
        rcases hdp : se.DestinationPorts with _ | ⟨p, ps⟩ <;>
        simp [decodeOne, tryConvertICMP, tryConvertL4, tryConvertEther,
          tryConvertIpProt, tryConvertAlg, hdn, hid, hdp] at h
      simp [← h, firstSuccessfulVariant, decodeTrialOrder,
        structuralDecodeSucceeds, tryConvertICMP, tryConvertL4,
        tryConvertEther, tryConvertIpProt, tryConvertAlg,
        DecodedEntry.variant, List.find?]
    case unknown raw =>
      simp [decodeOne, tryConvertICMP, tryConvertL4, tryConvertEther,
        tryConvertIpProt, tryConvertAlg, tryConvertIGMP] at h
  · refine ⟨consEntry e ls', hcons, ?_⟩
    intro t
    cases e <;> cases t <;>
      simp [consEntry, listCount, DecodedEntry.variant]

/-- Witness for C5: a concrete Ether-type record over an empty tail is
classified as the Ether-type variant (third trial) and lands in the
Ether-type collection alone. -/
theorem decode_trial_order_classification_witness :
    decodeOne (StructValue.ether
        ⟨some "u", some "n", some "", 2048, "EtherTypeServiceEntry"⟩) =
      DecodeOutcome.ok (DecodedEntry.ether ⟨"n", some "", 2048⟩) ∧
    decodeEntriesList [] = ReadOutcome.ok emptyDecodedLists ∧
    firstSuccessfulVariant (StructValue.ether
        ⟨some "u", some "n", some "", 2048, "EtherTypeServiceEntry"⟩) =
      some (DecodedEntry.ether ⟨"n", some "", 2048⟩).variant := by
  refine ⟨by decide, rfl, ?_⟩
  exact (decode_trial_order_classification
    (StructValue.ether ⟨some "u", some "n", some "", 2048, "EtherTypeServiceEntry"⟩)
    (DecodedEntry.ether ⟨"n", some "", 2048⟩) [] emptyDecodedLists
    (by decide) rfl).1

/-- C4: a configuration with exactly one entry in each of the six collections
(whose ICMP optional fields parse) encodes to exactly six wire records in the
fixed collection order ICMP, L4 port-set, IGMP, Ether-type, IP-protocol,
Algorithm — the collections are unordered fields of the configuration, so no
declared input order can affect this. -/
theorem encode_fixed_collection_order (gen : Nat → String)
    (n dn ds : String) (rv : Int)
    (e1 : IcmpEntryCfg) (e2 : L4EntryCfg) (e3 : IgmpEntryCfg)
    (e4 : EtherEntryCfg) (e5 : IpProtEntryCfg) (e6 : AlgEntryCfg)
    (ot oc : Option Int)
    (ht : parseOptIcmpField e1.icmp_type = Except.ok ot)
    (hc : parseOptIcmpField e1.icmp_code = Except.ok oc) :
    resourceNsxtPolicyServiceGetEntriesFromSchema gen
      ⟨n, dn, ds, rv, [e1], [e2], [e3], [e4], [e5], [e6]⟩ =
    ([StructValue.icmp
        { Id := some (gen 0)
          DisplayName := some e1.display_name
          Description := some e1.description
          IcmpType := ot
          IcmpCode := oc
          Protocol := e1.protocol
          ResourceType := ServiceEntry_RESOURCE_TYPE_ICMPTYPESERVICEENTRY },
      StructValue.l4
        { Id := some (gen 1)
          DisplayName := some e2.display_name
          Description := some e2.description
          DestinationPorts := e2.destination_ports
          SourcePorts := e2.source_ports
          L4Protocol := e2.protocol
          ResourceType := ServiceEntry_RESOURCE_TYPE_L4PORTSETSERVICEENTRY },
      StructValue.igmp
        { Id := some (gen 2)
          DisplayName := some e3.display_name
          Description := some e3.description
          ResourceType := ServiceEntry_RESOURCE_TYPE_IGMPTYPESERVICEENTRY },
      StructValue.ether
        { Id := some (gen 3)
          DisplayName := some e4.display_name
          Description := some e4.description
          EtherType := e4.ether_type
          ResourceType := ServiceEntry_RESOURCE_TYPE_ETHERTYPESERVICEENTRY },
      StructValue.ipProt
        { Id := some (gen 4)
          DisplayName := some e5.display_name
          Description := some e5.description
          ProtocolNumber := e5.protocol
          ResourceType := ServiceEntry_RESOURCE_TYPE_IPPROTOCOLSERVICEENTRY },
      StructValue.alg
        { Id := some (gen 5)
          DisplayName := some e6.display_name
          Description := some e6.description
          Alg := e6.algorithm
          DestinationPorts := [e6.destination_port]
          SourcePorts := e6.source_ports
          ResourceType := ServiceEntry_RESOURCE_TYPE_ALGTYPESERVICEENTRY }],
      none) := by
  simp [resourceNsxtPolicyServiceGetEntriesFromSchema, encodeIcmpEntries,
    encodeL4Entries, encodeIgmpEntries, encodeEtherEntries,
    encodeIpProtEntries, encodeAlgEntries, interface2StringList, ht, hc]

/-- Witness for C4 at a fully concrete singleton-per-collection
configuration. -/
theorem encode_fixed_collection_order_witness :
    parseOptIcmpField ("8" : String) = Except.ok (some 8) ∧
    parseOptIcmpField ("" : String) = Except.ok none ∧
    resourceNsxtPolicyServiceGetEntriesFromSchema (fun k => Itoa (Int.ofNat k))
      ⟨"", "svc", "", 0,
        [⟨"a", "", "ICMPv4", "8", ""⟩],
        [⟨"b", "", ["443"], ["1000-2000"], "TCP"⟩],
        [⟨"c", ""⟩],
        [⟨"d", "", 2048⟩],
        [⟨"e", "", 6⟩],
        [⟨"f", "", "21", [], "FTP"⟩]⟩ =
    ([StructValue.icmp
        { Id := some "0"
          DisplayName := some "a"
          Description := some ""
          IcmpType := some 8
          IcmpCode := none
          Protocol := "ICMPv4"
          ResourceType := ServiceEntry_RESOURCE_TYPE_ICMPTYPESERVICEENTRY },
      StructValue.l4
        { Id := some "1"
          DisplayName := some "b"
          Description := some ""
          DestinationPorts := ["443"]
          SourcePorts := ["1000-2000"]
          L4Protocol := "TCP"
          ResourceType := ServiceEntry_RESOURCE_TYPE_L4PORTSETSERVICEENTRY },
      StructValue.igmp
        { Id := some "2"
          DisplayName := some "c"
          Description := some ""
          ResourceType := ServiceEntry_RESOURCE_TYPE_IGMPTYPESERVICEENTRY },
      StructValue.ether
        { Id := some "3"
          DisplayName := some "d"
          Description := some ""
          EtherType := 2048
          ResourceType := ServiceEntry_RESOURCE_TYPE_ETHERTYPESERVICEENTRY },
      StructValue.ipProt
        { Id := some "4"
          DisplayName := some "e"
          Description := some ""
          ProtocolNumber := 6
          ResourceType := ServiceEntry_RESOURCE_TYPE_IPPROTOCOLSERVICEENTRY },
      StructValue.alg
        { Id := some "5"
          DisplayName := some "f"
          Description := some ""
          Alg := "FTP"
          DestinationPorts := ["21"]
          SourcePorts := []
          ResourceType := ServiceEntry_RESOURCE_TYPE_ALGTYPESERVICEENTRY }],
      none) := by
  refine ⟨by decide, by decide, ?_⟩
  exact encode_fixed_collection_order (fun k => Itoa (Int.ofNat k))
    "" "svc" "" 0
    ⟨"a", "", "ICMPv4", "8", ""⟩
    ⟨"b", "", ["443"], ["1000-2000"], "TCP"⟩
    ⟨"c", ""⟩
    ⟨"d", "", 2048⟩
    ⟨"e", "", 6⟩
    ⟨"f", "", "21", [], "FTP"⟩
    (some 8) none (by decide) (by decide)

/-- When every entry before `e` parses and `e` fails, the ICMP loop returns
exactly the records built for the prefix together with `e`'s parse error. -/
theorem encodeIcmp_prefix_error (gen : Nat → String) (e : IcmpEntryCfg)
    (post : List IcmpEntryCfg) (msg : String)
    (he : icmpEntryParseError e = some msg) :
    ∀ (pre : List IcmpEntryCfg) (k : Nat),
      (∀ p ∈ pre, icmpEntryParseError p = none) →
      ∃ k2, encodeIcmpEntries gen (pre ++ e :: post) k =
        ((encodeIcmpEntries gen pre k).1, k2, some msg) := by
  intro pre
  induction pre with
  | nil =>
    intro k _
    rcases ht : parseOptIcmpField e.icmp_type with m | ot
    · simp [icmpEntryParseError, ht] at he
      exact ⟨k, by simp [encodeIcmpEntries, ht, he]⟩
    · rcases hc : parseOptIcmpField e.icmp_code with m | oc
      · simp [icmpEntryParseError, ht, hc] at he
        exact ⟨k, by simp [encodeIcmpEntries, ht, hc, he]⟩
      · simp [icmpEntryParseError, ht, hc] at he
  | cons p pre' ih =>
    intro k hpre
    have hp : icmpEntryParseError p = none := hpre p (List.mem_cons_self p pre')
    rcases ht : parseOptIcmpField p.icmp_type with m | ot
    · simp [icmpEntryParseError, ht] at hp
    · rcases hc : parseOptIcmpField p.icmp_code with m | oc
      · simp [icmpEntryParseError, ht, hc] at hp
      · obtain ⟨k2, hrec⟩ := ih (k + 1)
          (fun q hq => hpre q (List.mem_cons_of_mem p hq))
        exact ⟨k2, by simp [encodeIcmpEntries, ht, hc, hrec]⟩

/-- C7 counterexample: with a parsing entry ahead of the malformed one, the
encode function returns the error TOGETHER with the one record built before
the failure — a partial list, refuting "no output records at all". -/
theorem encode_parse_failure_partial_list_counterexample :
    ((resourceNsxtPolicyServiceGetEntriesFromSchema (fun k => Itoa (Int.ofNat k))
      ⟨"", "svc", "", 0,
        [⟨"g", "", "ICMPv4", "1", ""⟩, ⟨"b", "", "ICMPv4", "notanumber", ""⟩],
        [], [], [], [], []⟩).2).isSome = true ∧
    (resourceNsxtPolicyServiceGetEntriesFromSchema (fun k => Itoa (Int.ofNat k))
      ⟨"", "svc", "", 0,
        [⟨"g", "", "ICMPv4", "1", ""⟩, ⟨"b", "", "ICMPv4", "notanumber", ""⟩],
        [], [], [], [], []⟩).1 =
      [StructValue.icmp
        { Id := some "0"
          DisplayName := some "g"
          Description := some ""
          IcmpType := some 1
          IcmpCode := none
          Protocol := "ICMPv4"
          ResourceType := ServiceEntry_RESOURCE_TYPE_ICMPTYPESERVICEENTRY }] := by
  decide

/-- C7 (amended): a field-parse failure in an ICMP entry makes the encode
function return that error at once, alongside exactly the records built
before the failing entry; its callers discard that partial list and perform
no remote write. -/
theorem encode_parse_failure_aborts (gen : Nat → String) (cfg : ServiceConfig)
    (pre post : List IcmpEntryCfg) (e : IcmpEntryCfg) (msg : String)
    (hsplit : cfg.icmp_entry = pre ++ e :: post)
    (hpre : ∀ p ∈ pre, icmpEntryParseError p = none)
    (he : icmpEntryParseError e = some msg) :
    resourceNsxtPolicyServiceGetEntriesFromSchema gen cfg =
      ((encodeIcmpEntries gen pre 0).1, some msg) ∧
    (∀ freshID pr, resourceNsxtPolicyServiceCreate gen freshID cfg pr =
      (some ("Error during Service entries conversion: " ++ msg), [])) ∧
    (∀ rid ur, rid ≠ "" → resourceNsxtPolicyServiceUpdate gen rid cfg ur =
      (some ("Error during Service entries conversion: " ++ msg), [])) := by
  obtain ⟨k2, hx⟩ := encodeIcmp_prefix_error gen e post msg he pre 0 hpre
  have henc : resourceNsxtPolicyServiceGetEntriesFromSchema gen cfg =
      ((encodeIcmpEntries gen pre 0).1, some msg) := by
    simp [resourceNsxtPolicyServiceGetEntriesFromSchema, hsplit, hx]
  refine ⟨henc, ?_, ?_⟩
  · intro freshID pr
    simp [resourceNsxtPolicyServiceCreate, henc]
  · intro rid ur hrid
    simp [resourceNsxtPolicyServiceUpdate, hrid, henc]

/-- Witness for the amended C7 at the concrete two-entry configuration of the
counterexample. -/
theorem encode_parse_failure_aborts_witness :
    (∀ p ∈ ([⟨"g", "", "ICMPv4", "1", ""⟩] : List IcmpEntryCfg),
      icmpEntryParseError p = none) ∧
    icmpEntryParseError ⟨"b", "", "ICMPv4", "notanumber", ""⟩ =
      some "strconv.Atoi: parsing notanumber: invalid syntax" ∧
    resourceNsxtPolicyServiceCreate (fun k => Itoa (Int.ofNat k)) "fresh"
      ⟨"", "svc", "", 0,
        [⟨"g", "", "ICMPv4", "1", ""⟩, ⟨"b", "", "ICMPv4", "notanumber", ""⟩],
        [], [], [], [], []⟩ none =
      (some ("Error during Service entries conversion: " ++
        "strconv.Atoi: parsing notanumber: invalid syntax"), []) := by
  refine ⟨by decide, by decide, ?_⟩
  exact (encode_parse_failure_aborts (fun k => Itoa (Int.ofNat k))
    ⟨"", "svc", "", 0,
      [⟨"g", "", "ICMPv4", "1", ""⟩, ⟨"b", "", "ICMPv4", "notanumber", ""⟩],
      [], [], [], [], []⟩
    [⟨"g", "", "ICMPv4", "1", ""⟩] [] ⟨"b", "", "ICMPv4", "notanumber", ""⟩
    "strconv.Atoi: parsing notanumber: invalid syntax"
    rfl (by decide) (by decide)).2.1 "fresh" none

/-- If some entry of the list has a field-parse error, the ICMP loop reports
an error. -/
theorem encodeIcmp_error_of_any (gen : Nat → String) :
    ∀ (l : List IcmpEntryCfg) (k : Nat),
      l.any (fun e => (icmpEntryParseError e).isSome) = true →
      ((encodeIcmpEntries gen l k).2.2).isSome = true := by
  intro l
  induction l with
  | nil => intro k h; simp at h
  | cons e rest ih =>
    intro k h
    rcases ht : parseOptIcmpField e.icmp_type with m | ot
    · simp [encodeIcmpEntries, ht]
    · rcases hc : parseOptIcmpField e.icmp_code with m | oc
      · simp [encodeIcmpEntries, ht, hc]
      · have he : icmpEntryParseError e = none := by
          simp [icmpEntryParseError, ht, hc]
        simp [he] at h
        have := ih (k + 1) (by simpa using h)
        simpa [encodeIcmpEntries, ht, hc] using this

/-- C8: a malformed numeric value in an optional ICMP type/code field makes
both the create and update handlers fail immediately with the wrapped
entry-conversion error, before issuing any remote write. -/
theorem malformed_icmp_field_no_remote_write (gen : Nat → String)
    (freshID rid : String) (cfg : ServiceConfig) (pr ur : Option String)
    (h : cfg.icmp_entry.any (fun e => (icmpEntryParseError e).isSome) = true)
    (hrid : rid ≠ "") :
    ∃ msg,
      resourceNsxtPolicyServiceCreate gen freshID cfg pr =
        (some ("Error during Service entries conversion: " ++ msg), []) ∧
      resourceNsxtPolicyServiceUpdate gen rid cfg ur =
        (some ("Error during Service entries conversion: " ++ msg), []) := by
  have hs := encodeIcmp_error_of_any gen cfg.icmp_entry 0 h
  obtain ⟨msg, hmsg⟩ := Option.isSome_iff_exists.mp hs
  have henc : (resourceNsxtPolicyServiceGetEntriesFromSchema gen cfg).2 =
      some msg := by
    simp [resourceNsxtPolicyServiceGetEntriesFromSchema, hmsg]
  refine ⟨msg, ?_, ?_⟩
  · simp [resourceNsxtPolicyServiceCreate, henc]
  · simp [resourceNsxtPolicyServiceUpdate, hrid, henc]

/-- Witness for C8: one malformed ICMP entry blocks both write handlers. -/
theorem malformed_icmp_field_no_remote_write_witness :
    (([⟨"b", "", "ICMPv4", "bad", ""⟩] : List IcmpEntryCfg).any
      (fun e => (icmpEntryParseError e).isSome) = true) ∧
    ("svc-1" : String) ≠ "" ∧
    ∃ msg,
      resourceNsxtPolicyServiceCreate (fun k => Itoa (Int.ofNat k)) "fresh"
        ⟨"", "svc", "", 0, [⟨"b", "", "ICMPv4", "bad", ""⟩],
          [], [], [], [], []⟩ none =
        (some ("Error during Service entries conversion: " ++ msg), []) ∧
      resourceNsxtPolicyServiceUpdate (fun k => Itoa (Int.ofNat k)) "svc-1"
        ⟨"", "svc", "", 0, [⟨"b", "", "ICMPv4", "bad", ""⟩],
          [], [], [], [], []⟩ none =
        (some ("Error during Service entries conversion: " ++ msg), []) := by
  refine ⟨by decide, by decide, ?_⟩
  exact malformed_icmp_field_no_remote_write (fun k => Itoa (Int.ofNat k))
    "fresh" "svc-1"
    ⟨"", "svc", "", 0, [⟨"b", "", "ICMPv4", "bad", ""⟩], [], [], [], [], []⟩
    none none (by decide) (by decide)

/-- A canonical optional integer-as-string parses, and rendering the parsed
value back yields the original string. -/
theorem canonical_parse (s : String) (h : isCanonicalOptIntString s = true) :
    ∃ o, parseOptIcmpField s = Except.ok o ∧ renderOptIcmpField o = s := by
  by_cases hs : s = ""
  · exact ⟨none, by simp [parseOptIcmpField, hs],
      by simp [renderOptIcmpField, hs]⟩
  · rcases ha : Atoi s with m | v
    · simp [isCanonicalOptIntString, hs, ha] at h
    · simp [isCanonicalOptIntString, hs, ha] at h
      exact ⟨some v, by simp [parseOptIcmpField, hs, ha],
        by simp [renderOptIcmpField, h]⟩

/-- Decoding a concatenation of successfully decodable record lists yields
the variant-wise concatenation of the two results. -/
theorem decode_append : ∀ (xs ys : List StructValue) (A B : DecodedLists),
    decodeEntriesList xs = ReadOutcome.ok A →
    decodeEntriesList ys = ReadOutcome.ok B →
    decodeEntriesList (xs ++ ys) = ReadOutcome.ok (combineLists A B) := by
  intro xs
  induction xs with
  | nil =>
    intro ys A B hA hB
    simp [decodeEntriesList] at hA
    rw [← hA]
    simpa [combineLists, emptyDecodedLists] using hB
  | cons v xs' ih =>
    intro ys A B hA hB
    rcases hd : decodeOne v with _ | m | e <;>
      simp [decodeEntriesList, hd] at hA
    rcases hrest : decodeEntriesList xs' with _ | m | A' <;>
      simp [hrest] at hA
    have hxy := ih ys A' B hrest hB
    rw [← hA]
    simp [decodeEntriesList, hd, hxy]
    cases e <;> simp [consEntry, combineLists]

/-- Round trip for the ICMP collection: with canonical optional fields and
display names never colliding with generated ids, encoding succeeds and
decoding the produced records reproduces the original entries' field
values. -/
theorem icmp_collection_roundtrip (gen : Nat → String) :
    ∀ (l : List IcmpEntryCfg) (k : Nat),
      (∀ e ∈ l, isCanonicalOptIntString e.icmp_type = true ∧
        isCanonicalOptIntString e.icmp_code = true) →
      (∀ j, ∀ e ∈ l, gen j ≠ e.display_name) →
      ∃ recs k2, encodeIcmpEntries gen l k = (recs, k2, none) ∧
        decodeEntriesList recs =
          ReadOutcome.ok ⟨l.map expectedIcmpElem, [], [], [], [], []⟩ := by
  intro l
  induction l with
  | nil =>
    intro k _ _
    exact ⟨[], k, by simp [encodeIcmpEntries],
      by simp [decodeEntriesList, emptyDecodedLists]⟩
  | cons e rest ih =>
    intro k hcanon hfresh
    obtain ⟨hct, hcc⟩ := hcanon e (List.mem_cons_self e rest)
    obtain ⟨ot, hpt, hrt⟩ := canonical_parse e.icmp_type hct
    obtain ⟨oc, hpc, hrc⟩ := canonical_parse e.icmp_code hcc
    obtain ⟨recs', k2, henc', hdec'⟩ := ih (k + 1)
      (fun x hx => hcanon x (List.mem_cons_of_mem e hx))
      (fun j x hx => hfresh j x (List.mem_cons_of_mem e hx))
    have hne : e.display_name ≠ gen k :=
      Ne.symm (hfresh k e (List.mem_cons_self e rest))
    have hde : decodeOne (StructValue.icmp
        { Id := some (gen k)
          DisplayName := some e.display_name
          Description := some e.description
          IcmpType := ot
          IcmpCode := oc
          Protocol := e.protocol
          ResourceType := ServiceEntry_RESOURCE_TYPE_ICMPTYPESERVICEENTRY }) =
        DecodeOutcome.ok (DecodedEntry.icmp (expectedIcmpElem e)) := by
      rcases ot with _ | t <;> rcases oc with _ | c <;>
        simp [renderOptIcmpField] at hrt hrc <;>
        simp [decodeOne, tryConvertICMP, expectedIcmpElem,
          filterServiceEntryDisplayName, hne, ← hrt, ← hrc]
    refine ⟨StructValue.icmp
        { Id := some (gen k)
          DisplayName := some e.display_name
          Description := some e.description
          IcmpType := ot
          IcmpCode := oc
          Protocol := e.protocol
          ResourceType := ServiceEntry_RESOURCE_TYPE_ICMPTYPESERVICEENTRY }
        :: recs', k2, ?_, ?_⟩
    · simp [encodeIcmpEntries, hpt, hpc, henc']
    · simp [decodeEntriesList, hde, hdec', consEntry]

/-- Round trip for the L4 port-set collection. -/
theorem l4_collection_roundtrip (gen : Nat → String) :
    ∀ (l : List L4EntryCfg) (k : Nat),
      (∀ j, ∀ e ∈ l, gen j ≠ e.display_name) →
      ∃ recs k2, encodeL4Entries gen l k = (recs, k2) ∧
        decodeEntriesList recs =
          ReadOutcome.ok ⟨[], l.map expectedL4Elem, [], [], [], []⟩ := by
  intro l
  induction l with
  | nil =>
    intro k _
    exact ⟨[], k, by simp [encodeL4Entries],
      by simp [decodeEntriesList, emptyDecodedLists]⟩
  | cons e rest ih =>
    intro k hfresh
    obtain ⟨recs', k2, henc', hdec'⟩ := ih (k + 1)
      (fun j x hx => hfresh j x (List.mem_cons_of_mem e hx))
    have hne : e.display_name ≠ gen k :=
      Ne.symm (hfresh k e (List.mem_cons_self e rest))
    have hde : decodeOne (StructValue.l4
        { Id := some (gen k)
          DisplayName := some e.display_name
          Description := some e.description
          DestinationPorts := interface2StringList e.destination_ports
          SourcePorts := interface2StringList e.source_ports
          L4Protocol := e.protocol
          ResourceType := ServiceEntry_RESOURCE_TYPE_L4PORTSETSERVICEENTRY }) =
        DecodeOutcome.ok (DecodedEntry.l4 (expectedL4Elem e)) := by
      simp [decodeOne, tryConvertICMP, tryConvertL4, interface2StringList,
        expectedL4Elem, filterServiceEntryDisplayName, hne]
    refine ⟨StructValue.l4
        { Id := some (gen k)
          DisplayName := some e.display_name
          Description := some e.description
          DestinationPorts := interface2StringList e.destination_ports
          SourcePorts := interface2StringList e.source_ports
          L4Protocol := e.protocol
          ResourceType := ServiceEntry_RESOURCE_TYPE_L4PORTSETSERVICEENTRY }
        :: recs', k2, ?_, ?_⟩
    · simp [encodeL4Entries, henc']
    · simp [decodeEntriesList, hde, hdec', consEntry]

/-- Round trip for the IGMP collection. -/
theorem igmp_collection_roundtrip (gen : Nat → String) :
    ∀ (l : List IgmpEntryCfg) (k : Nat),
      (∀ j, ∀ e ∈ l, gen j ≠ e.display_name) →
      ∃ recs k2, encodeIgmpEntries gen l k = (recs, k2) ∧
        decodeEntriesList recs =
          ReadOutcome.ok ⟨[], [], l.map expectedIgmpElem, [], [], []⟩ := by
  intro l
  induction l with
  | nil =>
    intro k _
    exact ⟨[], k, by simp [encodeIgmpEntries],
      by simp [decodeEntriesList, emptyDecodedLists]⟩
  | cons e rest ih =>
    intro k hfresh
    obtain ⟨recs', k2, henc', hdec'⟩ := ih (k + 1)
      (fun j x hx => hfresh j x (List.mem_cons_of_mem e hx))
    have hne : e.display_name ≠ gen k :=
      Ne.symm (hfresh k e (List.mem_cons_self e rest))
    have hde : decodeOne (StructValue.igmp
        { Id := some (gen k)
          DisplayName := some e.display_name
          Description := some e.description
          ResourceType := ServiceEntry_RESOURCE_TYPE_IGMPTYPESERVICEENTRY }) =
        DecodeOutcome.ok (DecodedEntry.igmp (expectedIgmpElem e)) := by
      simp [decodeOne, tryConvertICMP, tryConvertL4, tryConvertEther,
        tryConvertIpProt, tryConvertAlg, tryConvertIGMP,
        expectedIgmpElem, filterServiceEntryDisplayName, hne]
    refine ⟨StructValue.igmp
        { Id := some (gen k)
          DisplayName := some e.display_name
          Description := some e.description
          ResourceType := ServiceEntry_RESOURCE_TYPE_IGMPTYPESERVICEENTRY }
        :: recs', k2, ?_, ?_⟩
    · simp [encodeIgmpEntries, henc']
    · simp [decodeEntriesList, hde, hdec', consEntry]

/-- Round trip for the Ether-type collection. -/
theorem ether_collection_roundtrip (gen : Nat → String) :
    ∀ (l : List EtherEntryCfg) (k : Nat),
      (∀ j, ∀ e ∈ l, gen j ≠ e.display_name) →
      ∃ recs k2, encodeEtherEntries gen l k = (recs, k2) ∧
        decodeEntriesList recs =
          ReadOutcome.ok ⟨[], [], [], l.map expectedEtherElem, [], []⟩ := by
  intro l
  induction l with
  | nil =>
    intro k _
    exact ⟨[], k, by simp [encodeEtherEntries],
      by simp [decodeEntriesList, emptyDecodedLists]⟩
  | cons e rest ih =>
    intro k hfresh
    obtain ⟨recs', k2, henc', hdec'⟩ := ih (k + 1)
      (fun j x hx => hfresh j x (List.mem_cons_of_mem e hx))
    have hne : e.display_name ≠ gen k :=
      Ne.symm (hfresh k e (List.mem_cons_self e rest))
    have hde : decodeOne (StructValue.ether
        { Id := some (gen k)
          DisplayName := some e.display_name
          Description := some e.description
          EtherType := e.ether_type
          ResourceType := ServiceEntry_RESOURCE_TYPE_ETHERTYPESERVICEENTRY }) =
        DecodeOutcome.ok (DecodedEntry.ether (expectedEtherElem e)) := by
      simp [decodeOne, tryConvertICMP, tryConvertL4, tryConvertEther,
        expectedEtherElem, filterServiceEntryDisplayName, hne]
    refine ⟨StructValue.ether
        { Id := some (gen k)
          DisplayName := some e.display_name
          Description := some e.description
          EtherType := e.ether_type
          ResourceType := ServiceEntry_RESOURCE_TYPE_ETHERTYPESERVICEENTRY }
        :: recs', k2, ?_, ?_⟩
    · simp [encodeEtherEntries, henc']
    · simp [decodeEntriesList, hde, hdec', consEntry]

/-- Round trip for the IP-protocol collection. -/
theorem ipProt_collection_roundtrip (gen : Nat → String) :
    ∀ (l : List IpProtEntryCfg) (k : Nat),
      (∀ j, ∀ e ∈ l, gen j ≠ e.display_name) →
      ∃ recs k2, encodeIpProtEntries gen l k = (recs, k2) ∧
        decodeEntriesList recs =
          ReadOutcome.ok ⟨[], [], [], [], l.map expectedIpProtElem, []⟩ := by
  intro l
  induction l with
  | nil =>
    intro k _
    exact ⟨[], k, by simp [encodeIpProtEntries],
      by simp [decodeEntriesList, emptyDecodedLists]⟩
  | cons e rest ih =>
    intro k hfresh
    obtain ⟨recs', k2, henc', hdec'⟩ := ih (k + 1)
      (fun j x hx => hfresh j x (List.mem_cons_of_mem e hx))
    have hne : e.display_name ≠ gen k :=
      Ne.symm (hfresh k e (List.mem_cons_self e rest))
    have hde : decodeOne (StructValue.ipProt
        { Id := some (gen k)
          DisplayName := some e.display_name
          Description := some e.description
          ProtocolNumber := e.protocol
          ResourceType := ServiceEntry_RESOURCE_TYPE_IPPROTOCOLSERVICEENTRY }) =
        DecodeOutcome.ok (DecodedEntry.ipProt (expectedIpProtElem e)) := by
      simp [decodeOne, tryConvertICMP, tryConvertL4, tryConvertEther,
        tryConvertIpProt, expectedIpProtElem,
        filterServiceEntryDisplayName, hne]
    refine ⟨StructValue.ipProt
        { Id := some (gen k)
          DisplayName := some e.display_name
          Description := some e.description
          ProtocolNumber := e.protocol
          ResourceType := ServiceEntry_RESOURCE_TYPE_IPPROTOCOLSERVICEENTRY }
        :: recs', k2, ?_, ?_⟩
    · simp [encodeIpProtEntries, henc']
    · simp [decodeEntriesList, hde, hdec', consEntry]

/-- Round trip for the Algorithm collection: the singleton destination-ports
list built by the encoder is non-empty, so decoding extracts element 0 as the
single destination port. -/
theorem alg_collection_roundtrip (gen : Nat → String) :
    ∀ (l : List AlgEntryCfg) (k : Nat),
      (∀ j, ∀ e ∈ l, gen j ≠ e.display_name) →
      ∃ recs k2, encodeAlgEntries gen l k = (recs, k2) ∧
        decodeEntriesList recs =
          ReadOutcome.ok ⟨[], [], [], [], [], l.map expectedAlgElem⟩ := by
  intro l
  induction l with
  | nil =>
    intro k _
    exact ⟨[], k, by simp [encodeAlgEntries],
      by simp [decodeEntriesList, emptyDecodedLists]⟩
  | cons e rest ih =>
    intro k hfresh
    obtain ⟨recs', k2, henc', hdec'⟩ := ih (k + 1)
      (fun j x hx => hfresh j x (List.mem_cons_of_mem e hx))
    have hne : e.display_name ≠ gen k :=
      Ne.symm (hfresh k e (List.mem_cons_self e rest))
    have hde : decodeOne (StructValue.alg
        { Id := some (gen k)
          DisplayName := some e.display_name
          Description := some e.description
          Alg := e.algorithm
          DestinationPorts := [e.destination_port]
          SourcePorts := interface2StringList e.source_ports
          ResourceType := ServiceEntry_RESOURCE_TYPE_ALGTYPESERVICEENTRY }) =
        DecodeOutcome.ok (DecodedEntry.alg (expectedAlgElem e)) := by
      simp [decodeOne, tryConvertICMP, tryConvertL4, tryConvertEther,
        tryConvertIpProt, tryConvertAlg, interface2StringList,
        expectedAlgElem, filterServiceEntryDisplayName, hne]
    refine ⟨StructValue.alg
        { Id := some (gen k)
          DisplayName := some e.display_name
          Description := some e.description
          Alg := e.algorithm
          DestinationPorts := [e.destination_port]
          SourcePorts := interface2StringList e.source_ports
          ResourceType := ServiceEntry_RESOURCE_TYPE_ALGTYPESERVICEENTRY }
        :: recs', k2, ?_, ?_⟩
    · simp [encodeAlgEntries, henc']
    · simp [decodeEntriesList, hde, hdec', consEntry]

/-- C1 counterexample: the ICMP type string "007" parses (to 7) and the
entry's display name differs from the generated identifier, yet decoding the
encoded record yields icmp_type "7", not the original "007" — the original
field value is not reproduced even outside the claim's stated exceptions. -/
theorem roundtrip_counterexample :
    Atoi "007" = Except.ok 7 ∧
    (resourceNsxtPolicyServiceGetEntriesFromSchema (fun _ => "uuid-1")
      ⟨"", "svc", "", 0, [⟨"a", "", "ICMPv4", "007", ""⟩],
        [], [], [], [], []⟩).2 = none ∧
    decodeEntriesList (resourceNsxtPolicyServiceGetEntriesFromSchema
      (fun _ => "uuid-1")
      ⟨"", "svc", "", 0, [⟨"a", "", "ICMPv4", "007", ""⟩],
        [], [], [], [], []⟩).1 =
      ReadOutcome.ok ⟨[⟨"a", some "", "7", "", "ICMPv4"⟩],
        [], [], [], [], []⟩ ∧
    ("a" : String) ≠ "uuid-1" ∧ ("7" : String) ≠ "007" := by
  decide

/-- C1 (amended): for every configuration whose ICMP type/code strings are
canonical (empty, or re-rendering the parsed integer reproduces the string)
and whose display names never coincide with a generated identifier, encoding
succeeds and decoding the produced records reproduces the original field
values for every variant (the freshly generated identifiers themselves
excepted). -/
theorem roundtrip_amended (gen : Nat → String) (cfg : ServiceConfig)
    (hcanon : ∀ e ∈ cfg.icmp_entry, isCanonicalOptIntString e.icmp_type = true ∧
      isCanonicalOptIntString e.icmp_code = true)
    (hfresh : ∀ j, gen j ∉ configDisplayNames cfg) :
    (resourceNsxtPolicyServiceGetEntriesFromSchema gen cfg).2 = none ∧
    decodeEntriesList
        (resourceNsxtPolicyServiceGetEntriesFromSchema gen cfg).1 =
      ReadOutcome.ok
        ⟨cfg.icmp_entry.map expectedIcmpElem,
         cfg.l4_port_set_entry.map expectedL4Elem,
         cfg.igmp_entry.map expectedIgmpElem,
         cfg.ether_type_entry.map expectedEtherElem,
         cfg.ip_protocol_entry.map expectedIpProtElem,
         cfg.algorithm_entry.map expectedAlgElem⟩ := by
  have hf1 : ∀ j, ∀ e ∈ cfg.icmp_entry, gen j ≠ e.display_name := by
    intro j e he heq
    apply hfresh j
    rw [heq]
    unfold configDisplayNames
    exact List.mem_append.mpr (Or.inl (List.mem_append.mpr (Or.inl
      (List.mem_append.mpr (Or.inl (List.mem_append.mpr (Or.inl
      (List.mem_append.mpr (Or.inl (List.mem_map_of_mem _ he))))))))))
  have hf2 : ∀ j, ∀ e ∈ cfg.l4_port_set_entry, gen j ≠ e.display_name := by
    intro j e he heq
    apply hfresh j
    rw [heq]
    unfold configDisplayNames
    exact List.mem_append.mpr (Or.inl (List.mem_append.mpr (Or.inl
      (List.mem_append.mpr (Or.inl (List.mem_append.mpr (Or.inl
      (List.mem_append.mpr (Or.inr (List.mem_map_of_mem _ he))))))))))
  have hf3 : ∀ j, ∀ e ∈ cfg.igmp_entry, gen j ≠ e.display_name := by
    intro j e he heq
    apply hfresh j
    rw [heq]
    unfold configDisplayNames
    exact List.mem_append.mpr (Or.inl (List.mem_append.mpr (Or.inl
      (List.mem_append.mpr (Or.inl (List.mem_append.mpr (Or.inr
      (List.mem_map_of_mem _ he))))))))
  have hf4 : ∀ j, ∀ e ∈ cfg.ether_type_entry, gen j ≠ e.display_name := by
    intro j e he heq
    apply hfresh j
    rw [heq]
    unfold configDisplayNames
    exact List.mem_append.mpr (Or.inl (List.mem_append.mpr (Or.inl
      (List.mem_append.mpr (Or.inr (List.mem_map_of_mem _ he))))))
  have hf5 : ∀ j, ∀ e ∈ cfg.ip_protocol_entry, gen j ≠ e.display_name := by
    intro j e he heq
    apply hfresh j
    rw [heq]
    unfold configDisplayNames
    exact List.mem_append.mpr (Or.inl (List.mem_append.mpr (Or.inr
      (List.mem_map_of_mem _ he))))
  have hf6 : ∀ j, ∀ e ∈ cfg.algorithm_entry, gen j ≠ e.display_name := by
    intro j e he heq
    apply hfresh j
    rw [heq]
    unfold configDisplayNames
    exact List.mem_append.mpr (Or.inr (List.mem_map_of_mem _ he))
  obtain ⟨r1, c1, he1, hd1⟩ :=
    icmp_collection_roundtrip gen cfg.icmp_entry 0 hcanon hf1
  obtain ⟨r2, c2, he2, hd2⟩ :=
    l4_collection_roundtrip gen cfg.l4_port_set_entry c1 hf2
  obtain ⟨r3, c3, he3, hd3⟩ :=
    igmp_collection_roundtrip gen cfg.igmp_entry c2 hf3
  obtain ⟨r4, c4, he4, hd4⟩ :=
    ether_collection_roundtrip gen cfg.ether_type_entry c3 hf4
  obtain ⟨r5, c5, he5, hd5⟩ :=
    ipProt_collection_roundtrip gen cfg.ip_protocol_entry c4 hf5
  obtain ⟨r6, c6, he6, hd6⟩ :=
    alg_collection_roundtrip gen cfg.algorithm_entry c5 hf6
  have henc : resourceNsxtPolicyServiceGetEntriesFromSchema gen cfg =
      (r1 ++ (r2 ++ (r3 ++ (r4 ++ (r5 ++ r6)))), none) := by
    simp [resourceNsxtPolicyServiceGetEntriesFromSchema,
      he1, he2, he3, he4, he5, he6]
  have hd56 := decode_append r5 r6 _ _ hd5 hd6
  have hd456 := decode_append r4 _ _ _ hd4 hd56
  have hd3456 := decode_append r3 _ _ _ hd3 hd456
  have hd23456 := decode_append r2 _ _ _ hd2 hd3456
  have hdAll := decode_append r1 _ _ _ hd1 hd23456
  refine ⟨by rw [henc], ?_⟩
  rw [henc]
  simpa [combineLists] using hdAll

/-- Witness for the amended C1 at a concrete configuration with one entry in
each collection and a constant generator distinct from every display name. -/
theorem roundtrip_amended_witness :
    (∀ e ∈ ([⟨"a", "", "ICMPv4", "8", ""⟩] : List IcmpEntryCfg),
      isCanonicalOptIntString e.icmp_type = true ∧
      isCanonicalOptIntString e.icmp_code = true) ∧
    (∀ j : Nat, ((fun _ => "u") : Nat → String) j ∉ configDisplayNames
      ⟨"", "svc", "", 0, [⟨"a", "", "ICMPv4", "8", ""⟩],
        [⟨"b", "", ["443"], [], "TCP"⟩], [⟨"c", ""⟩], [⟨"d", "", 2048⟩],
        [⟨"e", "", 6⟩], [⟨"f", "", "21", [], "FTP"⟩]⟩) ∧
    (resourceNsxtPolicyServiceGetEntriesFromSchema (fun _ => "u")
      ⟨"", "svc", "", 0, [⟨"a", "", "ICMPv4", "8", ""⟩],
        [⟨"b", "", ["443"], [], "TCP"⟩], [⟨"c", ""⟩], [⟨"d", "", 2048⟩],
        [⟨"e", "", 6⟩], [⟨"f", "", "21", [], "FTP"⟩]⟩).2 = none ∧
    decodeEntriesList (resourceNsxtPolicyServiceGetEntriesFromSchema
      (fun _ => "u")
      ⟨"", "svc", "", 0, [⟨"a", "", "ICMPv4", "8", ""⟩],
        [⟨"b", "", ["443"], [], "TCP"⟩], [⟨"c", ""⟩], [⟨"d", "", 2048⟩],
        [⟨"e", "", 6⟩], [⟨"f", "", "21", [], "FTP"⟩]⟩).1 =
      ReadOutcome.ok
        ⟨([⟨"a", "", "ICMPv4", "8", ""⟩] : List IcmpEntryCfg).map expectedIcmpElem,
         ([⟨"b", "", ["443"], [], "TCP"⟩] : List L4EntryCfg).map expectedL4Elem,
         ([⟨"c", ""⟩] : List IgmpEntryCfg).map expectedIgmpElem,
         ([⟨"d", "", 2048⟩] : List EtherEntryCfg).map expectedEtherElem,
         ([⟨"e", "", 6⟩] : List IpProtEntryCfg).map expectedIpProtElem,
         ([⟨"f", "", "21", [], "FTP"⟩] : List AlgEntryCfg).map expectedAlgElem⟩ := by
  refine ⟨by decide, fun j => by
    show ("u" : String) ∉ configDisplayNames _
    decide, ?_, ?_⟩
  · exact (roundtrip_amended (fun _ => "u")
      ⟨"", "svc", "", 0, [⟨"a", "", "ICMPv4", "8", ""⟩],
        [⟨"b", "", ["443"], [], "TCP"⟩], [⟨"c", ""⟩], [⟨"d", "", 2048⟩],
        [⟨"e", "", 6⟩], [⟨"f", "", "21", [], "FTP"⟩]⟩
      (by decide) (fun j => by
        show ("u" : String) ∉ configDisplayNames _
        decide)).1
  · exact (roundtrip_amended (fun _ => "u")
      ⟨"", "svc", "", 0, [⟨"a", "", "ICMPv4", "8", ""⟩],
        [⟨"b", "", ["443"], [], "TCP"⟩], [⟨"c", ""⟩], [⟨"d", "", 2048⟩],
        [⟨"e", "", 6⟩], [⟨"f", "", "21", [], "FTP"⟩]⟩
      (by decide) (fun j => by
        show ("u" : String) ∉ configDisplayNames _
        decide)).2
